import Mathlib

/-!
# GoldenCheetah: `TreeMapWindow` and `Athlete`

A shallow embedding of `src/TreeMapWindow.cpp` and `src/Athlete.h`.

The window is a record of the members the code reads and writes.  Calls that
leave the window (the metadata reader, the metrics data source, the plot) are
appended to a call log held in the state, so that "exactly one query" and
"no call" are statements about that log.  Layout, labels and the popup pane
are presentation only and carry no state any method of the file reads; they
are left out.

Types and constants declared in headers that are not part of the sources
(`SummaryMetrics`, `ROOT_TYPE`, `METRIC_TYPE`, the metric factory, the metadata
reader, the metrics data source) are parameters of the development.
-/

namespace GoldenCheetah

/-! ## Toolkit values -/

/-- A calendar date, as a day number (`QDate`). -/
abbrev QDate := Int

/-- A time of day (`QTime(h, m, s)`). -/
structure QTime where
  h : Nat
  m : Nat
  s : Nat
  deriving DecidableEq, Repr

/-- A date with a time of day (`QDateTime(date, time)`). -/
structure QDateTime where
  date : QDate
  time : QTime
  deriving DecidableEq, Repr

/-- A directory, known by its absolute path (`QDir`). -/
structure QDir where
  absolutePath : String
  deriving DecidableEq, Repr

/-- The date range of a chart (`DateRange`): the members `from` and `to`. -/
structure DateRange where
  «from» : QDate
  «to» : QDate
  deriving DecidableEq, Repr

/-- A field definition of the metadata file; `addTextFields` reads `type` and `name`. -/
structure FieldDefinition where
  name : String
  type : Int
  deriving DecidableEq, Repr

/-! ## Combo boxes -/

/-- A combo box: its items and the index of the current one (`-1` when there is none). -/
structure QComboBox where
  items : List String
  currentIndex : Int
  deriving DecidableEq, Repr

/-- A freshly created combo box (`new QComboBox(this)`): no items, no current item. -/
def QComboBox.new : QComboBox := ⟨[], -1⟩

/-- Method `QComboBox::addItem`: the item is appended; the first item added to an empty
box becomes the current one. -/
def QComboBox.addItem (c : QComboBox) (text : String) : QComboBox :=
  { items := c.items ++ [text]
    currentIndex := if c.items.isEmpty then 0 else c.currentIndex }

/-- Method `QComboBox::currentText`: the text of the current item, empty when there is none. -/
def QComboBox.currentText (c : QComboBox) : String :=
  if 0 ≤ c.currentIndex then c.items.getD c.currentIndex.toNat "" else ""

/-! ## The metric tree -/

/-- A tree item: its type tag, its column texts and its selection flag. -/
structure QTreeWidgetItem where
  type : Int
  texts : List String
  selected : Bool
  deriving DecidableEq, Repr

/-- Expression `new QTreeWidgetItem(parent, type)`: no text, not selected. -/
def QTreeWidgetItem.new (type : Int) : QTreeWidgetItem := ⟨type, [], false⟩

/-- Method `QTreeWidgetItem::text(column)`: empty for a column never set. -/
def QTreeWidgetItem.text (it : QTreeWidgetItem) (column : Nat) : String :=
  it.texts.getD column ""

/-- Method `QTreeWidgetItem::setText(column, text)`. -/
def QTreeWidgetItem.setText (it : QTreeWidgetItem) (column : Nat) (text : String) :
    QTreeWidgetItem :=
  { it with texts := (it.texts ++ List.replicate (column + 1 - it.texts.length) "").set column text }

/-- Method `QTreeWidgetItem::setSelected(select)`. -/
def QTreeWidgetItem.setSelected (it : QTreeWidgetItem) (select : Bool) : QTreeWidgetItem :=
  { it with selected := select }

/-- The metric tree: the top-level item `allMetrics` and its children. -/
structure QTreeWidget where
  allMetrics : QTreeWidgetItem
  children : List QTreeWidgetItem
  deriving DecidableEq, Repr

/-- Method `QTreeWidget::selectedItems`: every item of the tree whose selection flag is
set, the top-level item included. -/
def QTreeWidget.selectedItems (t : QTreeWidget) : List QTreeWidgetItem :=
  (t.allMetrics :: t.children).filter (fun it => it.selected)

/-! ## Settings, collaborators and the window -/

/-- What the pointer `settings.data` holds: nothing assigned yet, or `&results`. -/
inductive DataPtr where
  | unset
  | results
  deriving DecidableEq, Repr

/-- The settings record handed to the plot: date range, the two fields, the
metric symbol and the pointer to the result set. -/
structure TMSettings where
  «from» : QDate
  «to» : QDate
  field1 : String
  field2 : String
  symbol : String
  data : DataPtr
  deriving DecidableEq, Repr

/-- A call that leaves the window. `M` is the type `SummaryMetrics`. -/
inductive Call (M : Type) where
  | readXML (filename : String)
  | getAllMetricsFor (start : QDateTime) (stop : QDateTime)
  | setData (settings : TMSettings) (pointee : List M)

/-- The parent main window, as far as the window reads it: the unit preference,
the home directory and the metrics data source `metricDB->getAllMetricsFor`. -/
structure MainWindow (M : Type) where
  useMetricUnits : Bool
  home : QDir
  metricDB : QDateTime → QDateTime → List M

/-- The state of a `TreeMapWindow`. `visible` is what `amVisible()` answers and
`myDateRange` is the date range member inherited from `GcWindow`. -/
structure TreeMapWindow (M : Type) where
  main : MainWindow M
  home : QDir
  useMetricUnits : Bool
  active : Bool
  dirty : Bool
  visible : Bool
  myDateRange : DateRange
  fieldDefinitions : List FieldDefinition
  field1 : QComboBox
  field2 : QComboBox
  metricTree : QTreeWidget
  settings : TMSettings
  results : List M
  log : List (Call M)

variable {M : Type}

/-- Method `GcWindow::amVisible`. -/
def TreeMapWindow.amVisible (w : TreeMapWindow M) : Bool := w.visible

/-- Method `TreeMapWindow::rideSelected`: empty body. -/
def TreeMapWindow.rideSelected (w : TreeMapWindow M) : TreeMapWindow M := w

/-- Method `TreeMapWindow::refreshPlot`: `ltmPlot->setData(&settings)`. The logged call
carries the settings and what `settings.data` points to at that moment. -/
def TreeMapWindow.refreshPlot (w : TreeMapWindow M) : TreeMapWindow M :=
  { w with log := w.log ++ [Call.setData w.settings
      (match w.settings.data with
       | DataPtr.results => w.results
       | DataPtr.unset => [])] }

/-- The `foreach` of `refresh` over the selected items: each item whose type is
not `ROOT_TYPE` overwrites `settings.symbol` with its column 1. -/
def setupSymbol (ROOT_TYPE : Int) (selected : List QTreeWidgetItem) (settings : TMSettings) :
    TMSettings :=
  selected.foldl
    (fun s metric => if metric.type ≠ ROOT_TYPE then { s with symbol := metric.text 1 } else s)
    settings

/-- Method `TreeMapWindow::refresh`. -/
def TreeMapWindow.refresh (ROOT_TYPE : Int) (w : TreeMapWindow M) : TreeMapWindow M :=
  if !w.amVisible then w
  else if w.active == false then
    let w := { w with useMetricUnits := w.main.useMetricUnits }
    let w := { w with settings := setupSymbol ROOT_TYPE w.metricTree.selectedItems w.settings }
    let w := { w with settings := { w.settings with «from» := w.myDateRange.«from» } }
    let w := { w with settings := { w.settings with «to» := w.myDateRange.«to» } }
    let w := { w with settings := { w.settings with field1 := w.field1.currentText } }
    let w := { w with settings := { w.settings with field2 := w.field2.currentText } }
    let w := { w with settings := { w.settings with data := DataPtr.results } }
    let w := { w with results := [] }
    let start := QDateTime.mk w.myDateRange.«from» (QTime.mk 0 0 0)
    let stop := QDateTime.mk w.myDateRange.«to» (QTime.mk 0 0 0)
    let w := { w with
      log := w.log ++ [Call.getAllMetricsFor start stop]
      results := w.main.metricDB start stop }
    w.refreshPlot
  else w

/-- Method `TreeMapWindow::metricTreeWidgetSelectionChanged`. -/
def TreeMapWindow.metricTreeWidgetSelectionChanged (ROOT_TYPE : Int) (w : TreeMapWindow M) :
    TreeMapWindow M :=
  w.refresh ROOT_TYPE

/-- Method `TreeMapWindow::dateRangeChanged(DateRange)`: the argument is unnamed. -/
def TreeMapWindow.dateRangeChanged (ROOT_TYPE : Int) (_ : DateRange) (w : TreeMapWindow M) :
    TreeMapWindow M :=
  w.refresh ROOT_TYPE

/-- Method `TreeMapWindow::fieldSelected(int)`: the argument is unnamed. -/
def TreeMapWindow.fieldSelected (ROOT_TYPE : Int) (_ : Int) (w : TreeMapWindow M) :
    TreeMapWindow M :=
  w.refresh ROOT_TYPE

/-- Method `TreeMapWindow::pointClicked(QwtPlotCurve*, int)`: the body is compiled out. -/
def TreeMapWindow.pointClicked (_ : Nat) (_ : Int) (w : TreeMapWindow M) : TreeMapWindow M := w

/-- Method `TreeMapWindow::addTextFields(combo)`: adds "None", then the name of every
field definition whose type is below 4. -/
def TreeMapWindow.addTextFields (w : TreeMapWindow M) (combo : QComboBox) : QComboBox :=
  w.fieldDefinitions.foldl
    (fun c x => if x.type < 4 then c.addItem x.name else c)
    (combo.addItem "None")

/-! ## Signal connections made by the constructor -/

/-- The objects whose signals the constructor connects. -/
inductive Sender where
  | self
  | metricTree
  | field1
  | field2
  | main
  deriving DecidableEq, Repr

/-- The names of the connected signals. -/
inductive SignalName where
  | dateRangeChanged
  | itemSelectionChanged
  | currentIndexChanged
  | rideItemChanged
  | rideAdded
  | rideDeleted
  | configChanged
  deriving DecidableEq, Repr

/-- A signal being emitted, with the argument the connected slots can receive. -/
inductive Signal where
  | dateRangeChanged (r : DateRange)
  | itemSelectionChanged
  | currentIndexChanged (i : Int)
  | rideItemChanged
  | rideAdded
  | rideDeleted
  | configChanged
  deriving DecidableEq, Repr

/-- The name under which a signal is connected. -/
def Signal.name : Signal → SignalName
  | Signal.dateRangeChanged _ => SignalName.dateRangeChanged
  | Signal.itemSelectionChanged => SignalName.itemSelectionChanged
  | Signal.currentIndexChanged _ => SignalName.currentIndexChanged
  | Signal.rideItemChanged => SignalName.rideItemChanged
  | Signal.rideAdded => SignalName.rideAdded
  | Signal.rideDeleted => SignalName.rideDeleted
  | Signal.configChanged => SignalName.configChanged

/-- The slots of the window that the constructor connects. -/
inductive Slot where
  | dateRangeChanged
  | metricTreeWidgetSelectionChanged
  | fieldSelected
  | rideSelected
  | refresh
  deriving DecidableEq, Repr

/-- One `connect(sender, SIGNAL(signal), this, SLOT(slot))`. -/
structure Connection where
  sender : Sender
  signal : SignalName
  slot : Slot
  deriving DecidableEq, Repr

/-- The `connect` calls of the constructor, in source order. No method of the
file disconnects or connects anything afterwards. -/
def connections : List Connection :=
  [ ⟨Sender.self, SignalName.dateRangeChanged, Slot.dateRangeChanged⟩,
    ⟨Sender.metricTree, SignalName.itemSelectionChanged, Slot.metricTreeWidgetSelectionChanged⟩,
    ⟨Sender.field1, SignalName.currentIndexChanged, Slot.fieldSelected⟩,
    ⟨Sender.field2, SignalName.currentIndexChanged, Slot.fieldSelected⟩,
    ⟨Sender.self, SignalName.rideItemChanged, Slot.rideSelected⟩,
    ⟨Sender.main, SignalName.rideAdded, Slot.refresh⟩,
    ⟨Sender.main, SignalName.rideDeleted, Slot.refresh⟩,
    ⟨Sender.main, SignalName.configChanged, Slot.refresh⟩ ]

/-- The slots connected to a signal of a sender, in connection order. -/
def slotsOf (sender : Sender) (signal : SignalName) : List Slot :=
  (connections.filter (fun c => c.sender == sender && c.signal == signal)).map (fun c => c.slot)

/-- Running one slot for an emitted signal. -/
def Slot.run (ROOT_TYPE : Int) (sig : Signal) (w : TreeMapWindow M) : Slot → TreeMapWindow M
  | Slot.dateRangeChanged =>
    match sig with
    | Signal.dateRangeChanged r => w.dateRangeChanged ROOT_TYPE r
    | _ => w
  | Slot.metricTreeWidgetSelectionChanged => w.metricTreeWidgetSelectionChanged ROOT_TYPE
  | Slot.fieldSelected =>
    match sig with
    | Signal.currentIndexChanged i => w.fieldSelected ROOT_TYPE i
    | _ => w
  | Slot.rideSelected => w.rideSelected
  | Slot.refresh => w.refresh ROOT_TYPE

/-- Emitting a signal: every connected slot runs, in connection order. -/
def TreeMapWindow.emit (ROOT_TYPE : Int) (sender : Sender) (sig : Signal) (w : TreeMapWindow M) :
    TreeMapWindow M :=
  (slotsOf sender sig.name).foldl (fun w slot => slot.run ROOT_TYPE sig w) w

/-! ## The constructor -/

/-- The metric catalogue (`RideMetricFactory`): the symbols in catalogue order
(`metricName(i)`) and the long name of the metric registered under a symbol
(`rideMetric(symbol)->name()`). -/
structure RideMetricFactory where
  metricNames : List String
  rideMetricName : String → String

/-- Method `RideMetricFactory::metricCount`. -/
def RideMetricFactory.metricCount (f : RideMetricFactory) : Nat := f.metricNames.length

/-- Method `RideMetricFactory::metricName(i)`. -/
def RideMetricFactory.metricName (f : RideMetricFactory) (i : Nat) : String :=
  f.metricNames.getD i ""

/-- What the constructor finds around it: which files exist (`QFile::exists`),
what `RideMetadata::readXML` delivers as field definitions for a file name, the
metric catalogue, and the `GcWindow` members `amVisible()` and `myDateRange` as
they are when the constructor runs. The keyword definitions and the colour
field that `readXML` also fills are read by no method of the file. -/
structure Surroundings where
  fileExists : String → Bool
  readXML : String → List FieldDefinition
  factory : RideMetricFactory
  visible : Bool
  myDateRange : DateRange

/-- The file name the constructor passes to `RideMetadata::readXML`. -/
def metadataFilename (fileExists : String → Bool) (mainHome : QDir) : String :=
  let filename := mainHome.absolutePath ++ "/metadata.xml"
  if !fileExists filename then ":/xml/metadata.xml" else filename

/-- Access `allMetrics->child(i)->...`: applies `f` to child `i`. -/
def QTreeWidget.modifyChild (t : QTreeWidget) (i : Nat) (f : QTreeWidgetItem → QTreeWidgetItem) :
    QTreeWidget :=
  { t with children := t.children.modify f i }

/-- One iteration of the catalogue loop of the constructor, for index `i`. The
new item `add` is appended to the children of `allMetrics`. -/
def addMetric (METRIC_TYPE : Int) (factory : RideMetricFactory) (t : QTreeWidget) (i : Nat) :
    QTreeWidget :=
  let add := t.children.length
  let t := { t with children := t.children ++ [QTreeWidgetItem.new METRIC_TYPE] }
  let title := factory.rideMetricName (factory.metricName i)
  let t := t.modifyChild add (fun it => it.setText 0 title)
  let t := t.modifyChild add (fun it => it.setText 1 (factory.metricName i))
  if factory.metricName i == "workout_time" then t.modifyChild i (fun it => it.setSelected true)
  else t

/-- The catalogue loop: `for (int i = 0; i < factory.metricCount(); ++i)`. -/
def metricLoop (METRIC_TYPE : Int) (factory : RideMetricFactory) (t : QTreeWidget) : QTreeWidget :=
  (List.range factory.metricCount).foldl (addMetric METRIC_TYPE factory) t

/-- A default-constructed settings record: empty strings, null dates, and a
data pointer that nothing has been assigned to. -/
def TMSettings.new : TMSettings := ⟨0, 0, "", "", "", DataPtr.unset⟩

/-- The constructor `TreeMapWindow::TreeMapWindow(parent, useMetricUnits, home)`
up to, but without, its closing call of `refresh()`: member initialisers, the
metadata file, the two selectors and the metric tree. -/
def TreeMapWindow.ctorSetup (env : Surroundings) (ROOT_TYPE METRIC_TYPE : Int)
    (parent : MainWindow M) (useMetricUnits : Bool) (home : QDir) : TreeMapWindow M :=
  let filename := metadataFilename env.fileExists parent.home
  let w : TreeMapWindow M :=
    { main := parent
      home := home
      useMetricUnits := useMetricUnits
      active := false
      dirty := true
      visible := env.visible
      myDateRange := env.myDateRange
      fieldDefinitions := env.readXML filename
      field1 := QComboBox.new
      field2 := QComboBox.new
      metricTree := ⟨(QTreeWidgetItem.new ROOT_TYPE).setText 0 "Metric", []⟩
      settings := TMSettings.new
      results := []
      log := [Call.readXML filename] }
  let w := { w with field1 := w.addTextFields QComboBox.new }
  let w := { w with field2 := w.addTextFields QComboBox.new }
  { w with metricTree := metricLoop METRIC_TYPE env.factory w.metricTree }

/-- Constructor `TreeMapWindow::TreeMapWindow(parent, useMetricUnits, home)`: the set-up
above, the `connect` calls (the table `connections`), and `refresh()`. -/
def TreeMapWindow.ctor (env : Surroundings) (ROOT_TYPE METRIC_TYPE : Int)
    (parent : MainWindow M) (useMetricUnits : Bool) (home : QDir) : TreeMapWindow M :=
  (TreeMapWindow.ctorSetup env ROOT_TYPE METRIC_TYPE parent useMetricUnits home).refresh ROOT_TYPE

/-! ## Operations on a constructed window -/

/-- The two selectors of the window. -/
inductive ComboId where
  | field1
  | field2
  deriving DecidableEq, Repr

/-- The selector named by a `ComboId`. -/
def TreeMapWindow.combo (w : TreeMapWindow M) : ComboId → QComboBox
  | ComboId.field1 => w.field1
  | ComboId.field2 => w.field2

/-- Replaces the selector named by a `ComboId`. -/
def TreeMapWindow.setCombo (w : TreeMapWindow M) (c : ComboId) (box : QComboBox) :
    TreeMapWindow M :=
  match c with
  | ComboId.field1 => { w with field1 := box }
  | ComboId.field2 => { w with field2 := box }

/-- The sender a selector is connected as. -/
def ComboId.sender : ComboId → Sender
  | ComboId.field1 => Sender.field1
  | ComboId.field2 => Sender.field2

/-- A tree with the selection flags replaced: flag `0` is for `allMetrics`,
flag `i + 1` for child `i`. -/
def QTreeWidget.withSelection (t : QTreeWidget) (flags : Nat → Bool) : QTreeWidget :=
  { allMetrics := t.allMetrics.setSelected (flags 0)
    children := t.children.enum.map (fun p => p.2.setSelected (flags (p.1 + 1))) }

/-- What can happen to a constructed window: a call of one of its methods, or
an event around it (the window is shown or hidden, its date range is set, the
user changes the tree selection or a selector, the ride item changes, the main
window reports a ride or a configuration change). -/
inductive Op (M : Type) where
  | refresh
  | refreshPlot
  | rideSelected
  | metricTreeWidgetSelectionChanged
  | dateRangeChanged (r : DateRange)
  | fieldSelected (i : Int)
  | pointClicked (curve : Nat) (index : Int)
  | addTextFields (c : ComboId)
  | setVisible (visible : Bool)
  | setDateRange (r : DateRange)
  | select (flags : Nat → Bool)
  | setCurrentIndex (c : ComboId) (i : Int)
  | rideItemChanged
  | rideAdded (metricDB : QDateTime → QDateTime → List M)
  | rideDeleted (metricDB : QDateTime → QDateTime → List M)
  | configChanged (useMetricUnits : Bool)

/-- The effect of an operation. The events change what they are about and then
emit their signal to the connected slots. -/
def Op.run (ROOT_TYPE : Int) (w : TreeMapWindow M) : Op M → TreeMapWindow M
  | Op.refresh => w.refresh ROOT_TYPE
  | Op.refreshPlot => w.refreshPlot
  | Op.rideSelected => w.rideSelected
  | Op.metricTreeWidgetSelectionChanged => w.metricTreeWidgetSelectionChanged ROOT_TYPE
  | Op.dateRangeChanged r => w.dateRangeChanged ROOT_TYPE r
  | Op.fieldSelected i => w.fieldSelected ROOT_TYPE i
  | Op.pointClicked curve index => w.pointClicked curve index
  | Op.addTextFields c => w.setCombo c (w.addTextFields (w.combo c))
  | Op.setVisible visible => { w with visible := visible }
  | Op.setDateRange r =>
    TreeMapWindow.emit ROOT_TYPE Sender.self (Signal.dateRangeChanged r) { w with myDateRange := r }
  | Op.select flags =>
    let t := w.metricTree.withSelection flags
    if t.selectedItems = w.metricTree.selectedItems then { w with metricTree := t }
    else TreeMapWindow.emit ROOT_TYPE Sender.metricTree Signal.itemSelectionChanged
      { w with metricTree := t }
  | Op.setCurrentIndex c i =>
    let box := w.combo c
    let j : Int := if 0 ≤ i ∧ i < box.items.length then i else -1
    if j = box.currentIndex then w
    else TreeMapWindow.emit ROOT_TYPE c.sender (Signal.currentIndexChanged j)
      (w.setCombo c { box with currentIndex := j })
  | Op.rideItemChanged => TreeMapWindow.emit ROOT_TYPE Sender.self Signal.rideItemChanged w
  | Op.rideAdded metricDB =>
    TreeMapWindow.emit ROOT_TYPE Sender.main Signal.rideAdded
      { w with main := { w.main with metricDB := metricDB } }
  | Op.rideDeleted metricDB =>
    TreeMapWindow.emit ROOT_TYPE Sender.main Signal.rideDeleted
      { w with main := { w.main with metricDB := metricDB } }
  | Op.configChanged useMetricUnits =>
    TreeMapWindow.emit ROOT_TYPE Sender.main Signal.configChanged
      { w with main := { w.main with useMetricUnits := useMetricUnits } }

/-- Running a sequence of operations, first to last. -/
def runOps (ROOT_TYPE : Int) (w : TreeMapWindow M) (ops : List (Op M)) : TreeMapWindow M :=
  ops.foldl (Op.run ROOT_TYPE) w

/-- The states reachable from construction by any sequence of operations. -/
inductive Reachable (ROOT_TYPE : Int) : TreeMapWindow M → Prop where
  | ctor (env : Surroundings) (METRIC_TYPE : Int) (parent : MainWindow M)
      (useMetricUnits : Bool) (home : QDir) :
      Reachable ROOT_TYPE (TreeMapWindow.ctor env ROOT_TYPE METRIC_TYPE parent useMetricUnits home)
  | step (w : TreeMapWindow M) (op : Op M) :
      Reachable ROOT_TYPE w → Reachable ROOT_TYPE (op.run ROOT_TYPE w)

/-! ## Reading the call log -/

/-- The file name of a `readXML` call. -/
def Call.readXMLName : Call M → Option String
  | Call.readXML filename => some filename
  | _ => none

/-- The arguments of a `getAllMetricsFor` query. -/
def Call.query : Call M → Option (QDateTime × QDateTime)
  | Call.getAllMetricsFor start stop => some (start, stop)
  | _ => none

/-- The settings of a `setData` call on the plot. -/
def Call.plotted : Call M → Option TMSettings
  | Call.setData settings _ => some settings
  | _ => none

/-! ## Athlete -/

/-- A pointer to a collaborator object. -/
abbrev Ptr := Nat

/-- The members of `Athlete`. The members that exist only under `GC_HAVE_ICAL`
or `GC_HAVE_LUCENE` are absent (`none`) when compiled out. -/
structure Athlete where
  cyclist : String
  useMetricUnits : Bool
  home : QDir
  zones_ : Ptr
  hrzones_ : Ptr
  db : Ptr
  metricDB : Ptr
  rideMetadata_ : Ptr
  seasons : Ptr
  cpxCache : List Ptr
  calendarDownload : Ptr
  withingsDownload : Ptr
  zeoDownload : Ptr
  rideCalendar : Option Ptr
  davCalendar : Option Ptr
  lucene : Option Ptr
  namedSearches : Option Ptr
  context : Ptr
  deriving DecidableEq, Repr

/-- The signals of `Athlete`. -/
inductive AthleteSignal where
  | zonesChanged
  | seasonsChanged
  deriving DecidableEq, Repr

/-- Method `Athlete::notifyZonesChanged`: `{ zonesChanged(); }`. The result is the
athlete afterwards and the signals emitted, in order. -/
def Athlete.notifyZonesChanged (a : Athlete) : Athlete × List AthleteSignal :=
  (a, [AthleteSignal.zonesChanged])

/-- Method `Athlete::notifySeasonsChanged`: `{ seasonsChanged(); }`. -/
def Athlete.notifySeasonsChanged (a : Athlete) : Athlete × List AthleteSignal :=
  (a, [AthleteSignal.seasonsChanged])

/-- Method `Athlete::zones`. -/
def Athlete.zones (a : Athlete) : Ptr := a.zones_

/-- Method `Athlete::hrZones`. -/
def Athlete.hrZones (a : Athlete) : Ptr := a.hrzones_

/-- Method `Athlete::rideMetadata`. -/
def Athlete.rideMetadata (a : Athlete) : Ptr := a.rideMetadata_

/-! ## Expected values -/

/-- The item the catalogue loop is expected to leave for a symbol. -/
def catalogueItem (METRIC_TYPE : Int) (factory : RideMetricFactory) (symbol : String) :
    QTreeWidgetItem :=
  ⟨METRIC_TYPE, [factory.rideMetricName symbol, symbol], symbol == "workout_time"⟩

/-! ## Concrete inputs -/

/-- A data source with two rides on every day range. -/
def sampleDB : QDateTime → QDateTime → List Nat := fun _ _ => [7, 9]

/-- A main window with home `/home/gc`. -/
def sampleMain : MainWindow Nat := ⟨true, ⟨"/home/gc"⟩, sampleDB⟩

/-- A catalogue of three metrics, `workout_time` among them. -/
def sampleFactory : RideMetricFactory :=
  ⟨["total_distance", "workout_time", "average_power"], fun s => "Long " ++ s⟩

/-- Field definitions of types 0, 4 and 3. -/
def sampleFields : List FieldDefinition := [⟨"Sport", 0⟩, ⟨"Weight", 4⟩, ⟨"Route", 3⟩]

/-- Surroundings of a hidden window without a user metadata file. -/
def hiddenEnv : Surroundings :=
  ⟨fun _ => false, fun _ => sampleFields, sampleFactory, false, ⟨100, 200⟩⟩

/-- Surroundings of a shown window with a user metadata file. -/
def shownEnv : Surroundings :=
  ⟨fun _ => true, fun _ => sampleFields, sampleFactory, true, ⟨100, 200⟩⟩

/-- A constructed window that is hidden. -/
def hiddenWindow : TreeMapWindow Nat := TreeMapWindow.ctor hiddenEnv 1 3 sampleMain true ⟨"/home/gc"⟩

/-- A constructed window that is shown. -/
def shownWindow : TreeMapWindow Nat := TreeMapWindow.ctor shownEnv 1 3 sampleMain true ⟨"/home/gc"⟩

/-- The shown window after the user selected the root item `Metric`. -/
def rootSelectedA : TreeMapWindow Nat :=
  runOps 1 shownWindow [Op.select (fun n => n == 0)]

/-- The shown window after the user selected the first metric and then the
root item `Metric`. -/
def rootSelectedB : TreeMapWindow Nat :=
  runOps 1 shownWindow [Op.select (fun n => n == 1), Op.select (fun n => n == 0)]

/-- The item of `workout_time` in the sample windows, selected. -/
def workoutItem : QTreeWidgetItem := ⟨3, ["Long workout_time", "workout_time"], true⟩

/-- An athlete. -/
def sampleAthlete : Athlete :=
  { cyclist := "Ann", useMetricUnits := true, home := ⟨"/home/gc/Ann"⟩, zones_ := 1,
    hrzones_ := 2, db := 3, metricDB := 4, rideMetadata_ := 5, seasons := 6, cpxCache := [7],
    calendarDownload := 8, withingsDownload := 9, zeoDownload := 10, rideCalendar := none,
    davCalendar := none, lucene := none, namedSearches := none, context := 11 }

/-! ## Lemmas on `refresh` -/

/-- With the guard closed `refresh` returns the state it was given. -/
theorem refresh_of_closed (ROOT_TYPE : Int) (w : TreeMapWindow M)
    (h : w.visible = false ∨ w.active = true) : w.refresh ROOT_TYPE = w := by
  unfold TreeMapWindow.refresh TreeMapWindow.amVisible
  rcases h with h | h
  · simp [h]
  · cases hv : w.visible <;> simp [h]

/-- The loop over the selected items writes no field but `symbol`. -/
theorem setupSymbol_fields (ROOT_TYPE : Int) (selected : List QTreeWidgetItem) (s : TMSettings) :
    (setupSymbol ROOT_TYPE selected s).«from» = s.«from» ∧
    (setupSymbol ROOT_TYPE selected s).«to» = s.«to» ∧
    (setupSymbol ROOT_TYPE selected s).field1 = s.field1 ∧
    (setupSymbol ROOT_TYPE selected s).field2 = s.field2 ∧
    (setupSymbol ROOT_TYPE selected s).data = s.data := by
  induction selected generalizing s with
  | nil => simp [setupSymbol]
  | cons it rest ih =>
    have h := ih (if it.type ≠ ROOT_TYPE then { s with symbol := it.text 1 } else s)
    simp only [setupSymbol, List.foldl_cons] at h ⊢
    by_cases ht : it.type = ROOT_TYPE
    · simpa [ht] using h
    · simpa [ht] using h

/-- With the guard open `refresh` is the following state. -/
theorem refresh_of_open (ROOT_TYPE : Int) (w : TreeMapWindow M)
    (hv : w.visible = true) (ha : w.active = false) :
    w.refresh ROOT_TYPE =
      { w with
        useMetricUnits := w.main.useMetricUnits
        settings :=
          { «from» := w.myDateRange.«from»
            «to» := w.myDateRange.«to»
            field1 := w.field1.currentText
            field2 := w.field2.currentText
            symbol := (setupSymbol ROOT_TYPE w.metricTree.selectedItems w.settings).symbol
            data := DataPtr.results }
        results := w.main.metricDB ⟨w.myDateRange.«from», ⟨0, 0, 0⟩⟩ ⟨w.myDateRange.«to», ⟨0, 0, 0⟩⟩
        log := w.log ++
          [ Call.getAllMetricsFor ⟨w.myDateRange.«from», ⟨0, 0, 0⟩⟩ ⟨w.myDateRange.«to», ⟨0, 0, 0⟩⟩,
            Call.setData
              { «from» := w.myDateRange.«from»
                «to» := w.myDateRange.«to»
                field1 := w.field1.currentText
                field2 := w.field2.currentText
                symbol := (setupSymbol ROOT_TYPE w.metricTree.selectedItems w.settings).symbol
                data := DataPtr.results }
              (w.main.metricDB ⟨w.myDateRange.«from», ⟨0, 0, 0⟩⟩
                ⟨w.myDateRange.«to», ⟨0, 0, 0⟩⟩) ] } := by
  simp [TreeMapWindow.refresh, TreeMapWindow.amVisible, TreeMapWindow.refreshPlot, hv, ha]

/-- The symbol after the loop when exactly one item is selected and it is not the root. -/
theorem setupSymbol_single (ROOT_TYPE : Int) (item : QTreeWidgetItem) (s : TMSettings)
    (h : item.type ≠ ROOT_TYPE) : (setupSymbol ROOT_TYPE [item] s).symbol = item.text 1 := by
  simp [setupSymbol, h]

/-- The loop leaves the settings alone when every selected item is the root. -/
theorem setupSymbol_of_all_root (ROOT_TYPE : Int) (selected : List QTreeWidgetItem)
    (s : TMSettings) (h : ∀ it ∈ selected, it.type = ROOT_TYPE) :
    setupSymbol ROOT_TYPE selected s = s := by
  induction selected generalizing s with
  | nil => rfl
  | cons it rest ih =>
    have h1 : it.type = ROOT_TYPE := h it (List.mem_cons_self _ _)
    have h2 := ih s (fun x hx => h x (List.mem_cons_of_mem _ hx))
    simpa [setupSymbol, h1] using h2

/-- The symbol after the loop does not depend on the symbol before it as soon as
some selected item is not the root. -/
theorem setupSymbol_indep (ROOT_TYPE : Int) (selected : List QTreeWidgetItem)
    (s t : TMSettings) (h : ∃ it ∈ selected, it.type ≠ ROOT_TYPE) :
    (setupSymbol ROOT_TYPE selected s).symbol = (setupSymbol ROOT_TYPE selected t).symbol := by
  induction selected generalizing s t with
  | nil => simp at h
  | cons it rest ih =>
    by_cases ht : it.type = ROOT_TYPE
    · have hrest : ∃ x ∈ rest, x.type ≠ ROOT_TYPE := by
        obtain ⟨x, hx, hne⟩ := h
        rcases List.mem_cons.mp hx with rfl | hx
        · exact absurd ht hne
        · exact ⟨x, hx, hne⟩
      have := ih s t hrest
      simpa [setupSymbol, ht] using this
    · by_cases hrest : ∃ x ∈ rest, x.type ≠ ROOT_TYPE
      · have := ih { s with symbol := it.text 1 } { t with symbol := it.text 1 } hrest
        simpa [setupSymbol, ht] using this
      · have hall : ∀ x ∈ rest, x.type = ROOT_TYPE := by
          intro x hx
          by_contra hne
          exact hrest ⟨x, hx, hne⟩
        have e1 := setupSymbol_of_all_root ROOT_TYPE rest { s with symbol := it.text 1 } hall
        have e2 := setupSymbol_of_all_root ROOT_TYPE rest { t with symbol := it.text 1 } hall
        simp only [setupSymbol, List.foldl_cons, ht, ne_eq, not_false_eq_true, if_true] at e1 e2 ⊢
        rw [e1, e2]

/-- What `refresh` never writes. -/
theorem refresh_frame (ROOT_TYPE : Int) (w : TreeMapWindow M) :
    (w.refresh ROOT_TYPE).active = w.active ∧
    (w.refresh ROOT_TYPE).visible = w.visible ∧
    (w.refresh ROOT_TYPE).field1 = w.field1 ∧
    (w.refresh ROOT_TYPE).field2 = w.field2 ∧
    (w.refresh ROOT_TYPE).metricTree = w.metricTree ∧
    (w.refresh ROOT_TYPE).fieldDefinitions = w.fieldDefinitions := by
  by_cases h : w.visible = true ∧ w.active = false
  · rw [refresh_of_open ROOT_TYPE w h.1 h.2]
    exact ⟨rfl, rfl, rfl, rfl, rfl, rfl⟩
  · have h2 : w.visible = false ∨ w.active = true := by
      cases hv : w.visible <;> cases ha : w.active <;> simp_all
    rw [refresh_of_closed ROOT_TYPE w h2]
    exact ⟨rfl, rfl, rfl, rfl, rfl, rfl⟩

/-- The `readXML` calls in the log after `refresh` are those before it. -/
theorem refresh_readXML (ROOT_TYPE : Int) (w : TreeMapWindow M) :
    (w.refresh ROOT_TYPE).log.filterMap Call.readXMLName = w.log.filterMap Call.readXMLName := by
  by_cases h : w.visible = true ∧ w.active = false
  · rw [refresh_of_open ROOT_TYPE w h.1 h.2]
    simp [List.filterMap_append, Call.readXMLName]
  · have h2 : w.visible = false ∨ w.active = true := by
      cases hv : w.visible <;> cases ha : w.active <;> simp_all
    rw [refresh_of_closed ROOT_TYPE w h2]

/-- The items after the loop of `addTextFields`. -/
theorem addTextFields_loop_items (defs : List FieldDefinition) (c : QComboBox) :
    (defs.foldl (fun c x => if x.type < 4 then c.addItem x.name else c) c).items =
      c.items ++ (defs.filter (fun x => x.type < 4)).map (fun x => x.name) := by
  induction defs generalizing c with
  | nil => simp
  | cons x rest ih =>
    rw [List.foldl_cons, ih]
    by_cases hx : x.type < 4
    · simp [hx, QComboBox.addItem]
    · simp [hx]

/-! ## Lemmas on the constructor -/

/-- Modifying the last element of a list. -/
theorem modify_at_length {α : Type} (f : α → α) (l : List α) (x : α) :
    (l ++ [x]).modify f l.length = l ++ [f x] := by
  induction l with
  | nil => rfl
  | cons a rest ih =>
    rw [List.length_cons, List.cons_append, List.modify_succ_cons, ih, List.cons_append]

/-- One iteration of the catalogue loop at the index that equals the number of
children appends the expected item. -/
theorem addMetric_at_length (METRIC_TYPE : Int) (factory : RideMetricFactory) (t : QTreeWidget)
    (i : Nat) (hlen : t.children.length = i) :
    addMetric METRIC_TYPE factory t i =
      { t with children := t.children ++ [catalogueItem METRIC_TYPE factory (factory.metricName i)] } := by
  subst hlen
  unfold addMetric QTreeWidget.modifyChild
  simp only [modify_at_length]
  by_cases h : factory.metricName t.children.length = "workout_time"
  · simp [h, modify_at_length, catalogueItem, QTreeWidgetItem.setText, QTreeWidgetItem.new,
      QTreeWidgetItem.setSelected]
  · simp [h, modify_at_length, catalogueItem, QTreeWidgetItem.setText, QTreeWidgetItem.new,
      QTreeWidgetItem.setSelected]

/-- The tree after the first `k` iterations of the catalogue loop. -/
theorem metricLoop_take (METRIC_TYPE : Int) (factory : RideMetricFactory)
    (root : QTreeWidgetItem) (k : Nat) (hk : k ≤ factory.metricCount) :
    (List.range k).foldl (addMetric METRIC_TYPE factory) ⟨root, []⟩ =
      ⟨root, (factory.metricNames.take k).map (catalogueItem METRIC_TYPE factory)⟩ := by
  induction k with
  | zero => simp
  | succ k ih =>
    have hk2 : k < factory.metricNames.length := hk
    rw [List.range_succ, List.foldl_append, ih (Nat.le_of_succ_le hk)]
    simp only [List.foldl_cons, List.foldl_nil]
    rw [addMetric_at_length _ _ _ _ (by simp [Nat.min_eq_left (Nat.le_of_lt hk2)])]
    have e : factory.metricName k = factory.metricNames[k] := by
      unfold RideMetricFactory.metricName
      exact List.getD_eq_getElem _ _ hk2
    rw [e, List.take_succ, List.getElem?_eq_getElem hk2]
    simp only [Option.toList, List.map_append, List.map_cons, List.map_nil]

/-- The metric tree of a constructed window. -/
theorem ctor_metricTree (env : Surroundings) (ROOT_TYPE METRIC_TYPE : Int)
    (parent : MainWindow M) (useMetricUnits : Bool) (home : QDir) :
    (TreeMapWindow.ctor env ROOT_TYPE METRIC_TYPE parent useMetricUnits home).metricTree =
      ⟨(QTreeWidgetItem.new ROOT_TYPE).setText 0 "Metric",
        env.factory.metricNames.map (catalogueItem METRIC_TYPE env.factory)⟩ := by
  unfold TreeMapWindow.ctor
  rw [(refresh_frame ROOT_TYPE _).2.2.2.2.1]
  simp only [TreeMapWindow.ctorSetup, metricLoop]
  rw [metricLoop_take METRIC_TYPE env.factory _ _ (Nat.le_refl _)]
  simp [RideMetricFactory.metricCount]

/-- The selected ones among the expected items are those of the symbol `workout_time`. -/
theorem filter_selected_catalogue (METRIC_TYPE : Int) (factory : RideMetricFactory)
    (names : List String) :
    (names.map (catalogueItem METRIC_TYPE factory)).filter (fun it => it.selected) =
      (names.filter (fun s => s == "workout_time")).map (catalogueItem METRIC_TYPE factory) := by
  rw [List.filter_map]
  rfl

/-! ## Lemmas on the operations -/

/-- Running a slot writes neither `active` nor the items of the selectors. -/
theorem slot_run_frame (ROOT_TYPE : Int) (sig : Signal) (w : TreeMapWindow M) (slot : Slot) :
    (slot.run ROOT_TYPE sig w).active = w.active ∧
    (slot.run ROOT_TYPE sig w).field1 = w.field1 ∧
    (slot.run ROOT_TYPE sig w).field2 = w.field2 := by
  obtain ⟨h1, -, h2, h3, -, -⟩ := refresh_frame ROOT_TYPE w
  cases slot <;> cases sig <;>
    simp [Slot.run, TreeMapWindow.dateRangeChanged, TreeMapWindow.fieldSelected,
      TreeMapWindow.metricTreeWidgetSelectionChanged, TreeMapWindow.rideSelected, h1, h2, h3]

/-- Running a list of slots writes neither `active` nor the selectors. -/
theorem slots_run_frame (ROOT_TYPE : Int) (sig : Signal) (slots : List Slot)
    (w : TreeMapWindow M) :
    (slots.foldl (fun w slot => slot.run ROOT_TYPE sig w) w).active = w.active ∧
    (slots.foldl (fun w slot => slot.run ROOT_TYPE sig w) w).field1 = w.field1 ∧
    (slots.foldl (fun w slot => slot.run ROOT_TYPE sig w) w).field2 = w.field2 := by
  induction slots generalizing w with
  | nil => exact ⟨rfl, rfl, rfl⟩
  | cons slot rest ih =>
    obtain ⟨a1, a2, a3⟩ := ih (slot.run ROOT_TYPE sig w)
    obtain ⟨b1, b2, b3⟩ := slot_run_frame ROOT_TYPE sig w slot
    rw [List.foldl_cons, a1, a2, a3, b1, b2, b3]
    exact ⟨rfl, rfl, rfl⟩

/-- Emitting a signal writes neither `active` nor the selectors. -/
theorem emit_frame (ROOT_TYPE : Int) (sender : Sender) (sig : Signal) (w : TreeMapWindow M) :
    (w.emit ROOT_TYPE sender sig).active = w.active ∧
    (w.emit ROOT_TYPE sender sig).field1 = w.field1 ∧
    (w.emit ROOT_TYPE sender sig).field2 = w.field2 :=
  slots_run_frame ROOT_TYPE sig (slotsOf sender sig.name) w

/-- The items of a selector after `addTextFields` are not empty. -/
theorem addTextFields_items_ne_nil (w : TreeMapWindow M) (combo : QComboBox) :
    (w.addTextFields combo).items ≠ [] := by
  unfold TreeMapWindow.addTextFields
  rw [addTextFields_loop_items]
  simp [QComboBox.addItem]

/-- No operation writes `active`, and none empties a selector. -/
theorem op_run_frame (ROOT_TYPE : Int) (w : TreeMapWindow M) (op : Op M) :
    (op.run ROOT_TYPE w).active = w.active ∧
    (w.field1.items ≠ [] → (op.run ROOT_TYPE w).field1.items ≠ []) ∧
    (w.field2.items ≠ [] → (op.run ROOT_TYPE w).field2.items ≠ []) := by
  have hR : (w.refresh ROOT_TYPE).active = w.active ∧
      (w.field1.items ≠ [] → (w.refresh ROOT_TYPE).field1.items ≠ []) ∧
      (w.field2.items ≠ [] → (w.refresh ROOT_TYPE).field2.items ≠ []) := by
    obtain ⟨r1, -, r2, r3, -, -⟩ := refresh_frame ROOT_TYPE w
    rw [r1, r2, r3]
    exact ⟨rfl, id, id⟩
  have hE : ∀ (sender : Sender) (sig : Signal) (v : TreeMapWindow M),
      v.active = w.active → (w.field1.items ≠ [] → v.field1.items ≠ []) →
      (w.field2.items ≠ [] → v.field2.items ≠ []) →
      (v.emit ROOT_TYPE sender sig).active = w.active ∧
      (w.field1.items ≠ [] → (v.emit ROOT_TYPE sender sig).field1.items ≠ []) ∧
      (w.field2.items ≠ [] → (v.emit ROOT_TYPE sender sig).field2.items ≠ []) := by
    intro sender sig v h1 h2 h3
    obtain ⟨e1, e2, e3⟩ := emit_frame ROOT_TYPE sender sig v
    rw [e1, e2, e3]
    exact ⟨h1, h2, h3⟩
  cases op with
  | refresh => exact hR
  | refreshPlot => exact ⟨rfl, id, id⟩
  | rideSelected => exact ⟨rfl, id, id⟩
  | metricTreeWidgetSelectionChanged => exact hR
  | dateRangeChanged r => exact hR
  | fieldSelected i => exact hR
  | pointClicked curve index => exact ⟨rfl, id, id⟩
  | addTextFields c =>
    have h := addTextFields_items_ne_nil w (w.combo c)
    cases c
    · exact ⟨rfl, fun _ => h, fun h2 => h2⟩
    · exact ⟨rfl, fun h1 => h1, fun _ => h⟩
  | setVisible visible => exact ⟨rfl, id, id⟩
  | setDateRange r => exact hE _ _ _ rfl id id
  | select flags =>
    by_cases hc : (w.metricTree.withSelection flags).selectedItems = w.metricTree.selectedItems
    · have e : Op.run ROOT_TYPE w (Op.select flags) =
          { w with metricTree := w.metricTree.withSelection flags } := if_pos hc
      rw [e]
      exact ⟨rfl, id, id⟩
    · have e : Op.run ROOT_TYPE w (Op.select flags) =
          TreeMapWindow.emit ROOT_TYPE Sender.metricTree Signal.itemSelectionChanged
            { w with metricTree := w.metricTree.withSelection flags } := if_neg hc
      rw [e]
      exact hE _ _ _ rfl id id
  | setCurrentIndex c i =>
    by_cases hc : (if 0 ≤ i ∧ i < ((w.combo c).items.length : Int) then i else -1) =
        (w.combo c).currentIndex
    · have e : Op.run ROOT_TYPE w (Op.setCurrentIndex c i) = w := if_pos hc
      rw [e]
      exact ⟨rfl, id, id⟩
    · have e : Op.run ROOT_TYPE w (Op.setCurrentIndex c i) =
          TreeMapWindow.emit ROOT_TYPE c.sender
            (Signal.currentIndexChanged
              (if 0 ≤ i ∧ i < ((w.combo c).items.length : Int) then i else -1))
            (w.setCombo c { w.combo c with
              currentIndex := if 0 ≤ i ∧ i < ((w.combo c).items.length : Int) then i else -1 }) :=
        if_neg hc
      rw [e]
      cases c
      · exact hE _ _ _ rfl id id
      · exact hE _ _ _ rfl id id
  | rideItemChanged => exact hE _ _ _ rfl id id
  | rideAdded metricDB => exact hE _ _ _ rfl id id
  | rideDeleted metricDB => exact hE _ _ _ rfl id id
  | configChanged useMetricUnits => exact hE _ _ _ rfl id id

/-- In every reachable state `active` is false and both selectors hold an item. -/
theorem reachable_inv (ROOT_TYPE : Int) (w : TreeMapWindow M) (h : Reachable ROOT_TYPE w) :
    w.active = false ∧ w.field1.items ≠ [] ∧ w.field2.items ≠ [] := by
  induction h with
  | ctor env METRIC_TYPE parent useMetricUnits home =>
    unfold TreeMapWindow.ctor
    obtain ⟨r1, -, r2, r3, -, -⟩ := refresh_frame ROOT_TYPE
      (TreeMapWindow.ctorSetup env ROOT_TYPE METRIC_TYPE parent useMetricUnits home)
    rw [r1, r2, r3]
    exact ⟨rfl, addTextFields_items_ne_nil _ _, addTextFields_items_ne_nil _ _⟩
  | step w op _ ih =>
    obtain ⟨o1, o2, o3⟩ := op_run_frame ROOT_TYPE w op
    exact ⟨o1.trans ih.1, o2 ih.2.1, o3 ih.2.2⟩

/-- A sequence of operations leads from a reachable state to a reachable state. -/
theorem reachable_runOps (ROOT_TYPE : Int) (ops : List (Op M)) (w : TreeMapWindow M)
    (h : Reachable ROOT_TYPE w) : Reachable ROOT_TYPE (runOps ROOT_TYPE w ops) := by
  induction ops generalizing w with
  | nil => exact h
  | cons op rest ih => exact ih (op.run ROOT_TYPE w) (Reachable.step w op h)

/-- The two sample windows with the root selected are reachable. -/
theorem reachable_rootSelected : Reachable 1 rootSelectedA ∧ Reachable 1 rootSelectedB :=
  ⟨reachable_runOps 1 _ shownWindow (Reachable.ctor shownEnv 3 sampleMain true ⟨"/home/gc"⟩),
   reachable_runOps 1 _ shownWindow (Reachable.ctor shownEnv 3 sampleMain true ⟨"/home/gc"⟩)⟩

/-! ## The claims -/

/-- C1: when the window is not visible, or `active` is true, `refresh` leaves
`settings`, `results` and `useMetricUnits` unchanged and makes no call at all
(no query to the data source, no `setData` on the plot): it returns the very
state it was given. -/
theorem C1_refresh_guard_closed (ROOT_TYPE : Int) (w : TreeMapWindow M)
    (h : w.visible = false ∨ w.active = true) :
    (w.refresh ROOT_TYPE).settings = w.settings ∧
    (w.refresh ROOT_TYPE).results = w.results ∧
    (w.refresh ROOT_TYPE).useMetricUnits = w.useMetricUnits ∧
    (w.refresh ROOT_TYPE).log = w.log ∧
    w.refresh ROOT_TYPE = w := by
  have e := refresh_of_closed ROOT_TYPE w h
  rw [e]
  exact ⟨rfl, rfl, rfl, rfl, rfl⟩

/-- C1 at the hidden sample window. -/
theorem C1_refresh_guard_closed_witness :
    (hiddenWindow.visible = false ∨ hiddenWindow.active = true) ∧
    (hiddenWindow.refresh 1).log = hiddenWindow.log :=
  ⟨Or.inl (by decide), (C1_refresh_guard_closed 1 hiddenWindow (Or.inl (by decide))).2.2.2.1⟩

/-- C4: in a visible state with `active` false, `refresh` ends with the settings
taken from the date range and the two selectors, `settings.data` referring to
`results`, `results` equal to what the data source returns for the one query
from `myDateRange.from` at 00:00:00 to `myDateRange.to` at 00:00:00 (nothing of
the old results is kept), and the calls made are exactly that query followed by
one `setData` with these settings. When the query returns nothing, `results` is
empty and `setData` is still called once. -/
theorem C4_refresh_open (ROOT_TYPE : Int) (w : TreeMapWindow M)
    (hv : w.visible = true) (ha : w.active = false) :
    (w.refresh ROOT_TYPE).settings.«from» = w.myDateRange.«from» ∧
    (w.refresh ROOT_TYPE).settings.«to» = w.myDateRange.«to» ∧
    (w.refresh ROOT_TYPE).settings.field1 = w.field1.currentText ∧
    (w.refresh ROOT_TYPE).settings.field2 = w.field2.currentText ∧
    (w.refresh ROOT_TYPE).settings.data = DataPtr.results ∧
    (w.refresh ROOT_TYPE).results =
      w.main.metricDB ⟨w.myDateRange.«from», ⟨0, 0, 0⟩⟩ ⟨w.myDateRange.«to», ⟨0, 0, 0⟩⟩ ∧
    (w.refresh ROOT_TYPE).log = w.log ++
      [ Call.getAllMetricsFor ⟨w.myDateRange.«from», ⟨0, 0, 0⟩⟩ ⟨w.myDateRange.«to», ⟨0, 0, 0⟩⟩,
        Call.setData (w.refresh ROOT_TYPE).settings (w.refresh ROOT_TYPE).results ] ∧
    (w.main.metricDB ⟨w.myDateRange.«from», ⟨0, 0, 0⟩⟩ ⟨w.myDateRange.«to», ⟨0, 0, 0⟩⟩ = [] →
      (w.refresh ROOT_TYPE).results = [] ∧
      (w.refresh ROOT_TYPE).log = w.log ++
        [ Call.getAllMetricsFor ⟨w.myDateRange.«from», ⟨0, 0, 0⟩⟩ ⟨w.myDateRange.«to», ⟨0, 0, 0⟩⟩,
          Call.setData (w.refresh ROOT_TYPE).settings [] ]) := by
  rw [refresh_of_open ROOT_TYPE w hv ha]
  refine ⟨rfl, rfl, rfl, rfl, rfl, rfl, rfl, ?_⟩
  intro h
  simp [h]

/-- C4 at the shown sample window. -/
theorem C4_refresh_open_witness :
    shownWindow.visible = true ∧ shownWindow.active = false ∧
    (shownWindow.refresh 1).results = [7, 9] :=
  ⟨by decide, by decide, (C4_refresh_open 1 shownWindow (by decide) (by decide)).2.2.2.2.2.1⟩

/-- C8: each of the handlers `dateRangeChanged(r)`, `metricTreeWidgetSelectionChanged()`
and `fieldSelected(i)` yields the state (call log included) that one `refresh()`
yields, whatever the argument; the ride-added, ride-deleted and config-changed
signals of the main window are connected to the slot `refresh` and to nothing
else, so emitting them is one `refresh()`; and emitting the date-range, tree
selection and selector signals is one `refresh()` too. -/
theorem C8_triggers_are_refresh (ROOT_TYPE : Int) (w : TreeMapWindow M) (r : DateRange) (i : Int) :
    w.dateRangeChanged ROOT_TYPE r = w.refresh ROOT_TYPE ∧
    w.metricTreeWidgetSelectionChanged ROOT_TYPE = w.refresh ROOT_TYPE ∧
    w.fieldSelected ROOT_TYPE i = w.refresh ROOT_TYPE ∧
    slotsOf Sender.main SignalName.rideAdded = [Slot.refresh] ∧
    slotsOf Sender.main SignalName.rideDeleted = [Slot.refresh] ∧
    slotsOf Sender.main SignalName.configChanged = [Slot.refresh] ∧
    w.emit ROOT_TYPE Sender.main Signal.rideAdded = w.refresh ROOT_TYPE ∧
    w.emit ROOT_TYPE Sender.main Signal.rideDeleted = w.refresh ROOT_TYPE ∧
    w.emit ROOT_TYPE Sender.main Signal.configChanged = w.refresh ROOT_TYPE ∧
    w.emit ROOT_TYPE Sender.self (Signal.dateRangeChanged r) = w.refresh ROOT_TYPE ∧
    w.emit ROOT_TYPE Sender.metricTree Signal.itemSelectionChanged = w.refresh ROOT_TYPE ∧
    w.emit ROOT_TYPE Sender.field1 (Signal.currentIndexChanged i) = w.refresh ROOT_TYPE ∧
    w.emit ROOT_TYPE Sender.field2 (Signal.currentIndexChanged i) = w.refresh ROOT_TYPE :=
  ⟨rfl, rfl, rfl, by decide, by decide, by decide, rfl, rfl, rfl, rfl, rfl, rfl, rfl⟩

/-- C2 fails as stated: in the hidden sample window the item of `workout_time`
is the selected item and is not the root, yet the selection-changed handler
leaves `settings.symbol` empty and makes no query. -/
theorem C2_counterexample :
    hiddenWindow.metricTree.selectedItems = [workoutItem] ∧
    workoutItem.type ≠ 1 ∧
    workoutItem.text 1 = "workout_time" ∧
    (hiddenWindow.metricTreeWidgetSelectionChanged 1).settings.symbol ≠ "workout_time" ∧
    (hiddenWindow.metricTreeWidgetSelectionChanged 1).log.filterMap Call.query = [] := by
  refine ⟨by decide, by decide, by decide, by decide, by decide⟩

/-- C2, amended: in a visible state with `active` false in which a non-root item
is the selected item of the metric tree, `metricTreeWidgetSelectionChanged`
leaves `settings.symbol` equal to the item's column 1 and makes exactly one
`getAllMetricsFor` query (followed by one `setData`); in a state that is not
visible or has `active` true the handler changes nothing and makes no query. -/
theorem C2_selection_changed (ROOT_TYPE : Int) (w : TreeMapWindow M) (item : QTreeWidgetItem)
    (hsel : w.metricTree.selectedItems = [item]) (hty : item.type ≠ ROOT_TYPE) :
    (w.visible = true → w.active = false →
      (w.metricTreeWidgetSelectionChanged ROOT_TYPE).settings.symbol = item.text 1 ∧
      (w.metricTreeWidgetSelectionChanged ROOT_TYPE).log = w.log ++
        [ Call.getAllMetricsFor ⟨w.myDateRange.«from», ⟨0, 0, 0⟩⟩ ⟨w.myDateRange.«to», ⟨0, 0, 0⟩⟩,
          Call.setData (w.metricTreeWidgetSelectionChanged ROOT_TYPE).settings
            (w.metricTreeWidgetSelectionChanged ROOT_TYPE).results ] ∧
      (w.metricTreeWidgetSelectionChanged ROOT_TYPE).log.filterMap Call.query =
        w.log.filterMap Call.query ++
          [(⟨w.myDateRange.«from», ⟨0, 0, 0⟩⟩, ⟨w.myDateRange.«to», ⟨0, 0, 0⟩⟩)]) ∧
    (w.visible = false ∨ w.active = true →
      w.metricTreeWidgetSelectionChanged ROOT_TYPE = w) := by
  unfold TreeMapWindow.metricTreeWidgetSelectionChanged
  constructor
  · intro hv ha
    rw [refresh_of_open ROOT_TYPE w hv ha, hsel]
    refine ⟨setupSymbol_single ROOT_TYPE item w.settings hty, rfl, ?_⟩
    simp [List.filterMap_append, Call.query]
  · intro h
    exact refresh_of_closed ROOT_TYPE w h

/-- C2 (amended) at the shown sample window. -/
theorem C2_selection_changed_witness :
    shownWindow.metricTree.selectedItems = [workoutItem] ∧ workoutItem.type ≠ 1 ∧
    shownWindow.visible = true ∧ shownWindow.active = false ∧
    (shownWindow.metricTreeWidgetSelectionChanged 1).settings.symbol = "workout_time" :=
  ⟨by decide, by decide, by decide, by decide,
    ((C2_selection_changed 1 shownWindow workoutItem (by decide) (by decide)).1
      (by decide) (by decide)).1⟩

/-- C3 fails as stated: two visible, inactive states with the same selected
items (the root only), the same selector texts, date range and data source,
that differ in the settings held before, keep different symbols through
`refresh`. -/
theorem C3_counterexample :
    rootSelectedA.visible = true ∧ rootSelectedA.active = false ∧
    rootSelectedB.visible = true ∧ rootSelectedB.active = false ∧
    rootSelectedA.metricTree.selectedItems = rootSelectedB.metricTree.selectedItems ∧
    rootSelectedA.field1.currentText = rootSelectedB.field1.currentText ∧
    rootSelectedA.field2.currentText = rootSelectedB.field2.currentText ∧
    rootSelectedA.myDateRange = rootSelectedB.myDateRange ∧
    rootSelectedA.main.metricDB = rootSelectedB.main.metricDB ∧
    rootSelectedA.settings ≠ rootSelectedB.settings ∧
    (rootSelectedA.refresh 1).settings.symbol = "workout_time" ∧
    (rootSelectedB.refresh 1).settings.symbol = "total_distance" ∧
    (rootSelectedA.refresh 1).settings ≠ (rootSelectedB.refresh 1).settings := by
  refine ⟨by decide, by decide, by decide, by decide, by decide, by decide, by decide, by decide,
    rfl, by decide, by decide, by decide, by decide⟩

/-- C3, amended: for two visible, inactive states that agree on the selected
tree items, the selector texts, the date range and the data source, `refresh`
yields the same `from`, `to`, `field1`, `field2` and `data` whatever the
settings were before, and the same `symbol` too whenever some selected item is
not the root; when every selected item is the root (or none is selected)
`symbol` keeps the value it had before the call. -/
theorem C3_settings_recomputed (ROOT_TYPE : Int) (w1 w2 : TreeMapWindow M)
    (hv1 : w1.visible = true) (ha1 : w1.active = false)
    (hv2 : w2.visible = true) (ha2 : w2.active = false)
    (hsel : w1.metricTree.selectedItems = w2.metricTree.selectedItems)
    (hf1 : w1.field1.currentText = w2.field1.currentText)
    (hf2 : w1.field2.currentText = w2.field2.currentText)
    (hr : w1.myDateRange = w2.myDateRange) :
    (w1.refresh ROOT_TYPE).settings.«from» = (w2.refresh ROOT_TYPE).settings.«from» ∧
    (w1.refresh ROOT_TYPE).settings.«to» = (w2.refresh ROOT_TYPE).settings.«to» ∧
    (w1.refresh ROOT_TYPE).settings.field1 = (w2.refresh ROOT_TYPE).settings.field1 ∧
    (w1.refresh ROOT_TYPE).settings.field2 = (w2.refresh ROOT_TYPE).settings.field2 ∧
    (w1.refresh ROOT_TYPE).settings.data = (w2.refresh ROOT_TYPE).settings.data ∧
    ((∃ it ∈ w1.metricTree.selectedItems, it.type ≠ ROOT_TYPE) →
      (w1.refresh ROOT_TYPE).settings = (w2.refresh ROOT_TYPE).settings) ∧
    ((∀ it ∈ w1.metricTree.selectedItems, it.type = ROOT_TYPE) →
      (w1.refresh ROOT_TYPE).settings.symbol = w1.settings.symbol ∧
      (w2.refresh ROOT_TYPE).settings.symbol = w2.settings.symbol) := by
  rw [refresh_of_open ROOT_TYPE w1 hv1 ha1, refresh_of_open ROOT_TYPE w2 hv2 ha2]
  simp only [hr, hf1, hf2, true_and]
  constructor
  · intro h
    have e := setupSymbol_indep ROOT_TYPE w1.metricTree.selectedItems w1.settings w2.settings h
    rw [e, hsel]
  · intro h
    rw [setupSymbol_of_all_root ROOT_TYPE _ w1.settings h,
      setupSymbol_of_all_root ROOT_TYPE _ w2.settings (hsel ▸ h)]
    exact ⟨rfl, rfl⟩

/-- C3 (amended) at the shown sample window and the window with the root selected. -/
theorem C3_settings_recomputed_witness :
    (rootSelectedA.refresh 1).settings.«from» = (rootSelectedB.refresh 1).settings.«from» :=
  (C3_settings_recomputed 1 rootSelectedA rootSelectedB (by decide) (by decide) (by decide)
    (by decide) (by decide) (by decide) (by decide) (by decide)).1

/-- C5: the constructor calls `RideMetadata::readXML` exactly once; the file
name it passes is the bundled resource `:/xml/metadata.xml` when the file
`metadata.xml` under the home directory of the main window does not exist, and
that file's path (absolute path of the home directory followed by
`/metadata.xml`) when it exists. The field definitions of the window are what
was read from that file. -/
theorem C5_metadata_file (env : Surroundings) (ROOT_TYPE METRIC_TYPE : Int)
    (parent : MainWindow M) (useMetricUnits : Bool) (home : QDir) :
    (env.fileExists (parent.home.absolutePath ++ "/metadata.xml") = false →
      (TreeMapWindow.ctor env ROOT_TYPE METRIC_TYPE parent useMetricUnits home).log.filterMap
          Call.readXMLName = [":/xml/metadata.xml"] ∧
      (TreeMapWindow.ctor env ROOT_TYPE METRIC_TYPE parent useMetricUnits home).fieldDefinitions =
        env.readXML ":/xml/metadata.xml") ∧
    (env.fileExists (parent.home.absolutePath ++ "/metadata.xml") = true →
      (TreeMapWindow.ctor env ROOT_TYPE METRIC_TYPE parent useMetricUnits home).log.filterMap
          Call.readXMLName = [parent.home.absolutePath ++ "/metadata.xml"] ∧
      (TreeMapWindow.ctor env ROOT_TYPE METRIC_TYPE parent useMetricUnits home).fieldDefinitions =
        env.readXML (parent.home.absolutePath ++ "/metadata.xml")) := by
  unfold TreeMapWindow.ctor
  rw [refresh_readXML, (refresh_frame ROOT_TYPE _).2.2.2.2.2]
  constructor
  · intro h
    simp [TreeMapWindow.ctorSetup, metadataFilename, h, Call.readXMLName]
  · intro h
    simp [TreeMapWindow.ctorSetup, metadataFilename, h, Call.readXMLName]

/-- C5 at the sample windows: without a user file the bundled resource is
read, with a user file `/home/gc/metadata.xml` is read. -/
theorem C5_metadata_file_witness :
    hiddenEnv.fileExists (sampleMain.home.absolutePath ++ "/metadata.xml") = false ∧
    hiddenWindow.log.filterMap Call.readXMLName = [":/xml/metadata.xml"] ∧
    shownEnv.fileExists (sampleMain.home.absolutePath ++ "/metadata.xml") = true ∧
    shownWindow.log.filterMap Call.readXMLName = ["/home/gc" ++ "/metadata.xml"] :=
  ⟨rfl,
    ((C5_metadata_file hiddenEnv 1 3 sampleMain true ⟨"/home/gc"⟩).1 rfl).1,
    rfl,
    ((C5_metadata_file shownEnv 1 3 sampleMain true ⟨"/home/gc"⟩).2 rfl).1⟩

/-- C6: `notifyZonesChanged()` emits `zonesChanged` once and nothing else,
`notifySeasonsChanged()` emits `seasonsChanged` once and nothing else, and
neither changes a member of the athlete. -/
theorem C6_notify (a : Athlete) :
    a.notifyZonesChanged.2 = [AthleteSignal.zonesChanged] ∧
    a.notifyZonesChanged.2.count AthleteSignal.zonesChanged = 1 ∧
    a.notifyZonesChanged.2.count AthleteSignal.seasonsChanged = 0 ∧
    a.notifyZonesChanged.1 = a ∧
    a.notifySeasonsChanged.2 = [AthleteSignal.seasonsChanged] ∧
    a.notifySeasonsChanged.2.count AthleteSignal.seasonsChanged = 1 ∧
    a.notifySeasonsChanged.2.count AthleteSignal.zonesChanged = 0 ∧
    a.notifySeasonsChanged.1 = a := by
  refine ⟨rfl, ?_, ?_, rfl, rfl, ?_, ?_, rfl⟩ <;>
    simp [Athlete.notifyZonesChanged, Athlete.notifySeasonsChanged]

/-- C9: `addTextFields` leaves a combo box with the items it had, then "None",
then the names of the field definitions whose type is below 4, in definition
order and with duplicates kept; so after construction `field1` and `field2`
are equal, hold "None" followed by those names, and have "None" at index 0. -/
theorem C9_addTextFields (w : TreeMapWindow M) (combo : QComboBox)
    (env : Surroundings) (ROOT_TYPE METRIC_TYPE : Int)
    (parent : MainWindow M) (useMetricUnits : Bool) (home : QDir) :
    (w.addTextFields combo).items =
      combo.items ++ ["None"] ++
        (w.fieldDefinitions.filter (fun x => x.type < 4)).map (fun x => x.name) ∧
    (TreeMapWindow.ctor env ROOT_TYPE METRIC_TYPE parent useMetricUnits home).field1 =
      (TreeMapWindow.ctor env ROOT_TYPE METRIC_TYPE parent useMetricUnits home).field2 ∧
    (TreeMapWindow.ctor env ROOT_TYPE METRIC_TYPE parent useMetricUnits home).field1.items =
      "None" ::
        ((TreeMapWindow.ctor env ROOT_TYPE METRIC_TYPE parent useMetricUnits home).fieldDefinitions.filter
          (fun x => x.type < 4)).map (fun x => x.name) ∧
    (TreeMapWindow.ctor env ROOT_TYPE METRIC_TYPE parent useMetricUnits home).field1.items[0]? =
      some "None" ∧
    (TreeMapWindow.ctor env ROOT_TYPE METRIC_TYPE parent useMetricUnits home).field2.items[0]? =
      some "None" := by
  have key : ∀ (v : TreeMapWindow M) (c : QComboBox), (v.addTextFields c).items =
      c.items ++ ["None"] ++
        (v.fieldDefinitions.filter (fun x => x.type < 4)).map (fun x => x.name) := by
    intro v c
    unfold TreeMapWindow.addTextFields
    rw [addTextFields_loop_items]
    simp [QComboBox.addItem]
  refine ⟨key w combo, ?_⟩
  unfold TreeMapWindow.ctor
  obtain ⟨-, -, h1, h2, -, h3⟩ := refresh_frame ROOT_TYPE
    (TreeMapWindow.ctorSetup env ROOT_TYPE METRIC_TYPE parent useMetricUnits home)
  rw [h1, h2, h3]
  refine ⟨rfl, ?_, ?_, ?_⟩
  · simp only [TreeMapWindow.ctorSetup]
    rw [key]
    simp [QComboBox.new]
  · simp only [TreeMapWindow.ctorSetup]
    rw [key]
    simp [QComboBox.new]
  · simp only [TreeMapWindow.ctorSetup]
    rw [key]
    simp [QComboBox.new]

/-- C7: after construction the root of the metric tree has exactly
`factory.metricCount()` children, in catalogue order; child `i` has the long
name of metric `i` in column 0 and its symbol in column 1; before iteration `i`
of the loop the root has `i` children, so `child(i)` is the item just added; a
child is selected exactly when its symbol is "workout_time" and the root is
not selected; hence with distinct symbols containing "workout_time" exactly
one item is selected, and without "workout_time" none is. -/
theorem C7_metric_tree (env : Surroundings) (ROOT_TYPE METRIC_TYPE : Int)
    (parent : MainWindow M) (useMetricUnits : Bool) (home : QDir) :
    (TreeMapWindow.ctor env ROOT_TYPE METRIC_TYPE parent useMetricUnits home).metricTree.children =
      env.factory.metricNames.map (catalogueItem METRIC_TYPE env.factory) ∧
    (TreeMapWindow.ctor env ROOT_TYPE METRIC_TYPE parent useMetricUnits
      home).metricTree.children.length = env.factory.metricCount ∧
    (∀ i, i < env.factory.metricCount →
      ∃ it, (TreeMapWindow.ctor env ROOT_TYPE METRIC_TYPE parent useMetricUnits
          home).metricTree.children[i]? = some it ∧
        it.type = METRIC_TYPE ∧
        it.text 0 = env.factory.rideMetricName (env.factory.metricName i) ∧
        it.text 1 = env.factory.metricName i ∧
        (it.selected = true ↔ env.factory.metricName i = "workout_time")) ∧
    (∀ i, i ≤ env.factory.metricCount →
      ((List.range i).foldl (addMetric METRIC_TYPE env.factory)
        ⟨(QTreeWidgetItem.new ROOT_TYPE).setText 0 "Metric", []⟩).children.length = i) ∧
    (∀ it ∈ (TreeMapWindow.ctor env ROOT_TYPE METRIC_TYPE parent useMetricUnits
        home).metricTree.children, (it.selected = true ↔ it.text 1 = "workout_time")) ∧
    (TreeMapWindow.ctor env ROOT_TYPE METRIC_TYPE parent useMetricUnits
      home).metricTree.allMetrics.selected = false ∧
    (env.factory.metricNames.Nodup → "workout_time" ∈ env.factory.metricNames →
      (TreeMapWindow.ctor env ROOT_TYPE METRIC_TYPE parent useMetricUnits
        home).metricTree.selectedItems =
        [catalogueItem METRIC_TYPE env.factory "workout_time"]) ∧
    ("workout_time" ∉ env.factory.metricNames →
      (TreeMapWindow.ctor env ROOT_TYPE METRIC_TYPE parent useMetricUnits
        home).metricTree.selectedItems = []) := by
  rw [ctor_metricTree]
  refine ⟨rfl, by simp [RideMetricFactory.metricCount], ?_, ?_, ?_, rfl, ?_, ?_⟩
  · intro i hi
    have hi2 : i < env.factory.metricNames.length := hi
    have e : env.factory.metricName i = env.factory.metricNames[i] := by
      unfold RideMetricFactory.metricName
      exact List.getD_eq_getElem _ _ hi2
    refine ⟨catalogueItem METRIC_TYPE env.factory (env.factory.metricName i), ?_, rfl, rfl, rfl, ?_⟩
    · simp [e, List.getElem?_eq_getElem hi2]
    · simp [catalogueItem]
  · intro i hi
    rw [metricLoop_take METRIC_TYPE env.factory _ i hi]
    have hi2 : i ≤ env.factory.metricNames.length := hi
    simp [Nat.min_eq_left hi2]
  · intro it hit
    simp only [List.mem_map] at hit
    obtain ⟨s, -, rfl⟩ := hit
    simp [catalogueItem, QTreeWidgetItem.text]
  · intro hnd hmem
    have hroot : ((QTreeWidgetItem.new ROOT_TYPE).setText 0 "Metric").selected = false := rfl
    simp only [QTreeWidget.selectedItems, List.filter_cons, hroot, Bool.false_eq_true, if_false]
    rw [filter_selected_catalogue]
    have hc : env.factory.metricNames.count "workout_time" = 1 :=
      List.count_eq_one_of_mem hnd hmem
    have hf : env.factory.metricNames.filter (fun s => s == "workout_time") =
        List.replicate 1 "workout_time" := by
      rw [← hc]
      exact List.filter_beq _ _
    rw [hf]
    rfl
  · intro hmem
    have hroot : ((QTreeWidgetItem.new ROOT_TYPE).setText 0 "Metric").selected = false := rfl
    simp only [QTreeWidget.selectedItems, List.filter_cons, hroot, Bool.false_eq_true, if_false]
    rw [filter_selected_catalogue]
    have hf : env.factory.metricNames.filter (fun s => s == "workout_time") = [] := by
      rw [List.filter_eq_nil_iff]
      intro a ha hEq
      have : a = "workout_time" := by simpa using hEq
      exact hmem (this ▸ ha)
    rw [hf]
    rfl

/-- C7 at the shown sample window: three metrics, `workout_time` the one selected. -/
theorem C7_metric_tree_witness :
    sampleFactory.metricNames.Nodup ∧ "workout_time" ∈ sampleFactory.metricNames ∧
    shownWindow.metricTree.selectedItems = [catalogueItem 3 sampleFactory "workout_time"] :=
  ⟨by decide, by decide,
    (C7_metric_tree shownEnv 1 3 sampleMain true ⟨"/home/gc"⟩).2.2.2.2.2.2.1 (by decide) (by decide)⟩

/-- C10: in every state reachable from construction by any sequence of
operations `active` is false; hence in every reachable state `refresh` does its
work (one query, one `setData`) if the window is visible, does nothing at all
if it is not, and makes a call exactly when the window is visible. -/
theorem C10_active_never_raised (ROOT_TYPE : Int) (w : TreeMapWindow M)
    (h : Reachable ROOT_TYPE w) :
    w.active = false ∧
    (w.visible = true →
      (w.refresh ROOT_TYPE).log = w.log ++
        [ Call.getAllMetricsFor ⟨w.myDateRange.«from», ⟨0, 0, 0⟩⟩ ⟨w.myDateRange.«to», ⟨0, 0, 0⟩⟩,
          Call.setData (w.refresh ROOT_TYPE).settings (w.refresh ROOT_TYPE).results ]) ∧
    (w.visible = false → w.refresh ROOT_TYPE = w) ∧
    ((w.refresh ROOT_TYPE).log ≠ w.log ↔ w.visible = true) := by
  have ha : w.active = false := (reachable_inv ROOT_TYPE w h).1
  refine ⟨ha, ?_, ?_, ?_⟩
  · intro hv
    rw [refresh_of_open ROOT_TYPE w hv ha]
  · intro hv
    exact refresh_of_closed ROOT_TYPE w (Or.inl hv)
  · constructor
    · intro hne
      by_contra hv
      have hv2 : w.visible = false := by simpa using hv
      exact hne (by rw [refresh_of_closed ROOT_TYPE w (Or.inl hv2)])
    · intro hv hEq
      rw [refresh_of_open ROOT_TYPE w hv ha] at hEq
      have hlen := congrArg List.length hEq
      simp at hlen

/-- C10 at a window reached by construction and two selection changes. -/
theorem C10_active_never_raised_witness :
    Reachable 1 rootSelectedB ∧ rootSelectedB.active = false :=
  ⟨reachable_rootSelected.2, (C10_active_never_raised 1 rootSelectedB reachable_rootSelected.2).1⟩

end GoldenCheetah
